import Mathlib

/-!
Verification of the core of the Test-Scanner repository against its
natural-language specification.

The Python source under `app/core/` is shallowly embedded:

* `scanner.py` (`PortScanner`): `scan_port` becomes a pure function of the
  outcome of the `connect_ex` call and of the `getservbyport` lookup; the
  returned Python dict becomes an association list `List (String × Val)`.
  `scan_host`'s worker pool becomes a small-step relation on a scan state
  (work queue, in-flight ports, result list, stop flag); a scheduler is an
  arbitrary interleaving of dequeue/finish/stop steps, so theorems about all
  reachable states hold for every thread scheduling order.
* `service_detector.py` (`ServiceDetector`): network reads are oracles
  (the banner bytes, the per-service probe responses, the TLS handshake
  outcome); byte strings are modelled as `String`, which is faithful here
  because `bytes.lower()` and `Char.toLower` both lowercase exactly the
  ASCII letters and every signature involved is ASCII.  The ten version
  regexes of `_extract_version` all have the shape
  "literal prefix / one greedy character-class capture group / literal
  suffix", so they are embedded by a small matcher implementing Python
  `re.search` semantics (leftmost start position, greedy capture with
  backtracking into the literal suffix) for exactly that shape.
-/

namespace PortScan

/-- A value stored in one of the Python dictionaries produced by the scanner:
either a string or an integer. -/
inductive Val where
  | s (v : String)
  | n (v : Nat)
deriving DecidableEq, Repr

/-- Outcome of the `connect_ex` attempt in `PortScanner.scan_port`
(src: app/core/scanner.py, lines 16-18).  `code v` is the C-level connect
result returned by `connect_ex` (`0` on success; an errno otherwise, e.g.
111 ECONNREFUSED for an actively refused connection, 104 ECONNRESET for a
reset, 113 EHOSTUNREACH for an unreachable host, 11 EAGAIN/EWOULDBLOCK for
a connect that timed out — `connect_ex` reports all of these as return
codes, not exceptions).  `exn msg` is a raised exception (for example
`socket.gaierror` on a DNS resolution failure), carrying `str(e)`. -/
inductive ConnectOutcome where
  | code (v : Nat)
  | exn (msg : String)
deriving DecidableEq, Repr

/-- `PortScanner.scan_port` (app/core/scanner.py, lines 13-45) as a function
of the connect outcome and of the `socket.getservbyport(port)` result
(`some name` on success, `none` when the lookup raises and the
`except` branch sets `service = "unknown"`).  The returned Python dict is
modelled as an association list, in the literal key order of the source. -/
def scanPort (port : Nat) (net : ConnectOutcome) (svc : Option String) :
    List (String × Val) :=
  match net with
  | .exn msg =>
      [("port", .n port), ("state", .s "error"), ("service", .s ""),
       ("error", .s msg)]
  | .code v =>
      if v = 0 then
        [("port", .n port), ("state", .s "open"),
         ("service", .s (match svc with | some sv => sv | none => "unknown"))]
      else
        [("port", .n port), ("state", .s "closed"), ("service", .s "")]

end PortScan

namespace PortScan

/-- C2 counterexample: `connect_ex` is documented to return an error
indicator — instead of raising — for every error of the C-level
`connect()` call; an actively refused connection (errno 111 ECONNREFUSED)
and an unreachable host (errno 113 EHOSTUNREACH) are both such errors, so
both reach `scan_port` as nonzero return codes, and scanner.py lines 33-38
map every nonzero code to the single record with state `closed`: the two
outcomes the claim requires to differ (refused → Closed, unreachable →
Error) traverse the same branch and produce identical records, so the
claim's `Error` for a host-unreachable failure is false. -/
theorem scan_port_hostunreach_closed_cex :
    (scanPort 80 (ConnectOutcome.code 113) none).lookup "state"
        = some (Val.s "closed") ∧
    scanPort 80 (ConnectOutcome.code 111) none
        = scanPort 80 (ConnectOutcome.code 113) none ∧
    Val.s "closed" ≠ Val.s "error" := by
  refine ⟨rfl, ?_, ?_⟩
  · decide
  · decide

/-- C2 (amended): `scan_port` classifies by the shape of the `connect_ex`
outcome alone: result code 0 yields state `open`; any nonzero result code
(actively refused, reset, host unreachable, or a timed-out connect — all of
which `connect_ex` reports as codes) yields state `closed`; and a raised
exception (e.g. DNS resolution failure) yields state `error` together with
the human-readable `str(e)` in the `error` field. -/
theorem scan_port_classification (port v : Nat) (msg : String)
    (svc : Option String) (hv : v ≠ 0) :
    (scanPort port (ConnectOutcome.code 0) svc).lookup "state"
        = some (Val.s "open") ∧
    (scanPort port (ConnectOutcome.code v) svc).lookup "state"
        = some (Val.s "closed") ∧
    (scanPort port (ConnectOutcome.exn msg) svc).lookup "state"
        = some (Val.s "error") ∧
    (scanPort port (ConnectOutcome.exn msg) svc).lookup "error"
        = some (Val.s msg) := by
  refine ⟨rfl, ?_, rfl, rfl⟩
  simp [scanPort, hv, List.lookup]

/-- Witness for `scan_port_classification` at port 80, errno 113, a DNS
failure message, and a failed service lookup. -/
theorem scan_port_classification_witness :
    (scanPort 80 (ConnectOutcome.code 0) none).lookup "state"
        = some (Val.s "open") ∧
    (scanPort 80 (ConnectOutcome.code 113) none).lookup "state"
        = some (Val.s "closed") ∧
    (scanPort 80 (ConnectOutcome.exn "getaddrinfo failed") none).lookup "state"
        = some (Val.s "error") ∧
    (scanPort 80 (ConnectOutcome.exn "getaddrinfo failed") none).lookup "error"
        = some (Val.s "getaddrinfo failed") :=
  scan_port_classification 80 113 "getaddrinfo failed" none (by decide)

/-- C6 counterexample: the dict returned by `scan_port` has no `host` key at
all (scanner.py lines 28-45 list only `port`, `state`, `service` and, in the
exception branch, `error`), so the claim that every record contains a `host`
field is false. -/
theorem scan_port_no_host_field_cex :
    (scanPort 80 (ConnectOutcome.code 0) (some "http")).lookup "host"
      = none := by
  rfl

/-- C6 (amended): `scan_port` never raises (it is a total function of the
connect outcome: the whole body is wrapped in try/except), and every record
it returns contains `port` and `state` — but not `host` — with
state ∈ {open, closed, error}, and an `error` field present iff the state is
`error`. -/
theorem scan_port_record_shape (port : Nat) (net : ConnectOutcome)
    (svc : Option String) :
    (scanPort port net svc).lookup "port" = some (Val.n port) ∧
    (∃ st, (scanPort port net svc).lookup "state" = some (Val.s st) ∧
      (st = "open" ∨ st = "closed" ∨ st = "error")) ∧
    (((scanPort port net svc).lookup "error").isSome ↔
      (scanPort port net svc).lookup "state" = some (Val.s "error")) ∧
    (scanPort port net svc).lookup "host" = none := by
  match net with
  | .exn msg =>
      exact ⟨rfl, ⟨"error", rfl, Or.inr (Or.inr rfl)⟩,
        ⟨fun _ => rfl, fun _ => rfl⟩, rfl⟩
  | .code v =>
      by_cases hv : v = 0
      · subst hv
        refine ⟨rfl, ⟨"open", rfl, Or.inl rfl⟩, ?_, rfl⟩
        rw [show (scanPort port (ConnectOutcome.code 0) svc).lookup "error"
              = none from rfl]
        rw [show (scanPort port (ConnectOutcome.code 0) svc).lookup "state"
              = some (Val.s "open") from rfl]
        decide
      · refine ⟨?_, ⟨"closed", ?_, Or.inr (Or.inl rfl)⟩, ?_, ?_⟩ <;>
          simp [scanPort, hv, List.lookup]

/-- C7 counterexample: for an open port whose `getservbyport` lookup fails,
`scan_port` sets `service = "unknown"` (scanner.py line 26), not the empty
string the claim demands. -/
theorem scan_port_service_unknown_cex :
    (scanPort 80 (ConnectOutcome.code 0) none).lookup "service"
        = some (Val.s "unknown") ∧
      Val.s "unknown" ≠ Val.s "" := by
  constructor
  · rfl
  · decide

/-- C7 (amended): for every open port where the opportunistic service-name
lookup fails, `scan_port` returns a record whose `service` field is the
string "unknown". -/
theorem scan_port_service_lookup_failure (port : Nat) :
    (scanPort port (ConnectOutcome.code 0) none).lookup "service"
      = some (Val.s "unknown") := by
  rfl

end PortScan

namespace Detect

/-- Python `bytes.lower()` (and ASCII `str.lower()`): `Char.toLower`
lowercases exactly the ASCII letters, as `bytes.lower` does. -/
def lowerList (cs : List Char) : List Char := cs.map Char.toLower

/-- The Python substring test `needle in hay`. -/
def containsSub (needle : List Char) : List Char → Bool
  | [] => needle.isEmpty
  | c :: t => needle.isPrefixOf (c :: t) || containsSub needle t

/-- The ASCII whitespace recognized by Python `str.strip()` and `\s`. -/
def isPySpace (c : Char) : Bool :=
  c = ' ' || c = '\t' || c = '\n' || c = '\r' || c = '\x0b' || c = '\x0c'

/-- Python `str.strip()`. -/
def pyStrip (cs : List Char) : List Char :=
  ((cs.dropWhile isPySpace).reverse.dropWhile isPySpace).reverse

/-- `ServiceDetector.SERVICE_SIGNATURES` (service_detector.py lines 13-33),
in dict insertion order. -/
def SERVICE_SIGNATURES : List (String × List String) := [
  ("http", ["HTTP", "<html", "<!DOCTYPE"]),
  ("https", ["HTTP", "<html", "<!DOCTYPE"]),
  ("ssh", ["SSH", "OpenSSH"]),
  ("ftp", ["220", "FTP", "FileZilla"]),
  ("smtp", ["220", "SMTP", "ESMTP"]),
  ("pop3", ["+OK", "POP3"]),
  ("imap", ["* OK", "IMAP"]),
  ("telnet", ["Telnet", "login:", "Username:"]),
  ("mysql", ["mysql_native_password", "MariaDB"]),
  ("rdp", ["RDP", "RFB"]),
  ("vnc", ["RFB", "VNC"]),
  ("dns", ["DNS"]),
  ("smb", ["SMB", "Samba"]),
  ("ldap", ["LDAP"]),
  ("ntp", ["NTP"]),
  ("snmp", ["SNMP"]),
  ("redis", ["REDIS"]),
  ("mongodb", ["MongoDB"]),
  ("postgresql", ["PostgreSQL"])
]

/-- `ServiceDetector._identify_from_banner` (service_detector.py lines
176-185): lowercase the banner, walk the signature table in order, and
return the first service one of whose lowercased signatures is a substring;
empty string on no match. -/
def identifyFromBanner (banner : String) : String :=
  let bl := lowerList banner.toList
  match SERVICE_SIGNATURES.find? (fun sv =>
      sv.2.any (fun sig => containsSub (lowerList sig.toList) bl)) with
  | some sv => sv.1
  | none => ""

/-- One literal item of a version regex: a case-insensitive literal
character, or the `.` wildcard. -/
inductive PatItem where
  | lit (c : Char)
  | anyc
deriving DecidableEq, Repr

/-- The two character classes appearing in the version regexes of
`_extract_version`: `[^\r\n]` and `[^\s]`. -/
inductive CharCls where
  | notCRLF
  | notSpace
deriving DecidableEq, Repr

def clsOk : CharCls → Char → Bool
  | .notCRLF, c => !(c = '\r' || c = '\n')
  | .notSpace, c => !(isPySpace c)

/-- A version regex of the shape `(?i)pre(cls+)post` — the shape of all ten
patterns in `_extract_version` (service_detector.py lines 194-205). -/
structure VerPat where
  pre : List PatItem
  cls : CharCls
  post : List PatItem
deriving Repr

/-- Match a literal item list at the head of the input (case-insensitive);
returns the remaining input on success. -/
def matchItems : List PatItem → List Char → Option (List Char)
  | [], cs => some cs
  | _ :: _, [] => none
  | .lit c :: ps, x :: cs =>
      if c.toLower = x.toLower then matchItems ps cs else none
  | .anyc :: ps, _ :: cs => matchItems ps cs

/-- Greedy backtracking for the one-or-more capture group: try capture
lengths k, k-1, ..., 1 of the class run until the literal suffix matches
directly after the capture, as Python `re` backtracks. -/
def tryCapture (post : List PatItem) (run tail : List Char) :
    Nat → Option (List Char)
  | 0 => none
  | k + 1 =>
      if (matchItems post (run.drop (k + 1) ++ tail)).isSome then
        some (run.take (k + 1))
      else tryCapture post run tail k

/-- Match a whole version regex at one start position: literal prefix, then
the greedy capture with backtracking into the literal suffix. -/
def matchAt (p : VerPat) (cs : List Char) : Option (List Char) :=
  match matchItems p.pre cs with
  | none => none
  | some rest =>
      let run := rest.takeWhile (clsOk p.cls)
      let tail := rest.dropWhile (clsOk p.cls)
      tryCapture p.post run tail run.length

/-- `re.search` semantics: try every start position, leftmost first. -/
def searchPat (p : VerPat) : List Char → Option (List Char)
  | [] => matchAt p []
  | c :: t =>
      match matchAt p (c :: t) with
      | some g => some g
      | none => searchPat p t

/-- Compile a pattern fragment: `.` is the regex wildcard; every other
character of these fragments is a literal (they contain no other
metacharacter). -/
def mkItems (s : String) : List PatItem :=
  s.toList.map (fun c => if c = '.' then PatItem.anyc else PatItem.lit c)

/-- The ordered version-pattern list of `_extract_version`
(service_detector.py lines 194-205). -/
def versionPatterns : List VerPat := [
  ⟨mkItems "Server: ", .notCRLF, []⟩,
  ⟨mkItems "Version: ", .notCRLF, []⟩,
  ⟨mkItems "OpenSSH_", .notSpace, []⟩,
  ⟨mkItems "Apache/", .notSpace, []⟩,
  ⟨mkItems "nginx/", .notSpace, []⟩,
  ⟨mkItems "Microsoft-IIS/", .notSpace, []⟩,
  ⟨mkItems "MySQL ", .notSpace, []⟩,
  ⟨mkItems "PostgreSQL ", .notSpace, []⟩,
  ⟨mkItems "SSH-2.0-", .notCRLF, []⟩,
  ⟨mkItems "220 ", .notCRLF, mkItems " FTP"⟩
]

/-- First-match-wins over the ordered pattern list; the matched group is
returned `strip()`-ped (service_detector.py lines 207-210). -/
def extractGo : List VerPat → List Char → String
  | [], _ => ""
  | p :: ps, cs =>
      match searchPat p cs with
      | some g => String.mk (pyStrip g)
      | none => extractGo ps cs

/-- `ServiceDetector._extract_version` (service_detector.py lines 187-214). -/
def extractVersion (banner : String) : String :=
  extractGo versionPatterns banner.toList

end Detect

namespace Detect

/-- The `tech_signatures` table of `_identify_web_technologies`
(service_detector.py lines 432-449), in dict insertion order. -/
def TECH_SIGNATURES : List (String × List String) := [
  ("WordPress", ["wp-content", "wp-includes", "WordPress"]),
  ("Joomla", ["joomla", "Joomla"]),
  ("Drupal", ["Drupal.settings", "drupal"]),
  ("Bootstrap", ["bootstrap.css", "bootstrap.min.css", "bootstrap.js"]),
  ("jQuery", ["jquery.js", "jquery.min.js", "jQuery"]),
  ("React", ["react.js", "react-dom.js", "react.production.min.js"]),
  ("Angular", ["angular.js", "ng-app", "ng-controller"]),
  ("Vue.js", ["vue.js", "vue.min.js"]),
  ("Laravel", ["laravel", "Laravel"]),
  ("Django", ["django", "csrftoken"]),
  ("ASP.NET", ["__VIEWSTATE", "ASP.NET"]),
  ("PHP", ["php", "PHP"]),
  ("Node.js", ["node_modules", "Express"]),
  ("Apache", ["apache", "Apache"]),
  ("Nginx", ["nginx", "Nginx"]),
  ("IIS", ["IIS", "Microsoft-IIS"])
]

/-- `ServiceDetector._identify_web_technologies` (service_detector.py lines
427-457).  The Python dict maps a technology to `True` when one of its
signatures occurs case-insensitively in the content (inner loop breaks on
the first matching signature, so each key is inserted at most once); the
dict is therefore exactly the list of matching technology names in table
order. -/
def identifyWebTechnologies (content : String) : List String :=
  (TECH_SIGNATURES.filter (fun ts =>
    ts.2.any (fun sig =>
      containsSub (lowerList sig.toList) (lowerList content.toList)))).map
    Prod.fst

/-- The receive loop of `_get_banner` (service_detector.py lines 158-169):
the argument lists the successive return values of `s.recv(1024)` (each of
length at most 1024); the stream ends with a read timeout (end of list) or
an empty read (peer closed).  Bytes are modelled as `Nat`.  The size check
`len(banner) > 4096` runs only after appending a chunk. -/
def bannerLoop : List (List Nat) → List Nat → List Nat
  | [], acc => acc
  | d :: rest, acc =>
      if d.isEmpty then acc
      else
        let acc2 := acc ++ d
        if 4096 < acc2.length then acc2 else bannerLoop rest acc2

/-- The bytes accumulated by a successful `_get_banner` call whose `recv`
loop saw the given chunks. -/
def getBannerBytes (chunks : List (List Nat)) : List Nat := bannerLoop chunks []

/-- `List.isPrefixOf` is preserved by character-wise lowercasing. -/
theorem isPrefixOf_map_toLower : ∀ (needle hay : List Char),
    needle.isPrefixOf hay = true →
    (lowerList needle).isPrefixOf (lowerList hay) = true
  | [], _, _ => by simp [lowerList, List.isPrefixOf]
  | _ :: _, [], h => by simp [List.isPrefixOf] at h
  | a :: as, b :: bs, h => by
      simp only [List.isPrefixOf, Bool.and_eq_true, beq_iff_eq] at h
      simp only [lowerList, List.map_cons, List.isPrefixOf, Bool.and_eq_true,
        beq_iff_eq]
      exact ⟨by rw [h.1], isPrefixOf_map_toLower as bs h.2⟩

/-- The substring test is preserved by character-wise lowercasing. -/
theorem containsSub_map_toLower : ∀ (hay needle : List Char),
    containsSub needle hay = true →
    containsSub (lowerList needle) (lowerList hay) = true
  | [], needle, h => by
      simp only [containsSub, List.isEmpty_iff] at h
      subst h
      simp [containsSub, lowerList]
  | c :: t, needle, h => by
      simp only [containsSub, Bool.or_eq_true] at h
      simp only [lowerList, List.map_cons, containsSub, Bool.or_eq_true]
      rcases h with h | h
      · exact Or.inl (by
          have := isPrefixOf_map_toLower needle (c :: t) h
          simpa [lowerList] using this)
      · exact Or.inr (by
          have := containsSub_map_toLower t needle h
          simpa [lowerList] using this)

end Detect

namespace Detect

/-- C5 counterexample: this banner contains the substring
"SSH-2.0-OpenSSH_8.9", yet `_identify_from_banner` returns the
earlier-listed `http` entry (its signature "HTTP" also occurs) and
`_extract_version` returns the capture of the earlier-listed `Server:`
pattern, so the claim's universal statement over all banners containing the
substring is false. -/
theorem ssh_banner_first_match_cex :
    containsSub "SSH-2.0-OpenSSH_8.9".toList
        "HTTP Server: Apache SSH-2.0-OpenSSH_8.9".toList = true ∧
    identifyFromBanner "HTTP Server: Apache SSH-2.0-OpenSSH_8.9" = "http" ∧
    extractVersion "HTTP Server: Apache SSH-2.0-OpenSSH_8.9"
        = "Apache SSH-2.0-OpenSSH_8.9" ∧
    ("http" : String) ≠ "ssh" ∧
    ("Apache SSH-2.0-OpenSSH_8.9" : String) ≠ "8.9" :=
  ⟨by decide, by decide, by decide, by decide, by decide⟩

/-- C5 (amended): for the banner whose text is exactly "SSH-2.0-OpenSSH_8.9"
(in general, a banner in which no earlier signature-table entry and no
earlier version pattern also matches and the OpenSSH token ends the line),
the banner-identification stage returns "ssh" — the first matching entry of
the signature table — and the version-extraction stage returns "8.9" via
the first matching pattern of the ordered list, `OpenSSH_([^\s]+)`. -/
theorem ssh_banner_exact_match :
    identifyFromBanner "SSH-2.0-OpenSSH_8.9" = "ssh" ∧
    extractVersion "SSH-2.0-OpenSSH_8.9" = "8.9" :=
  ⟨by decide, by decide⟩

set_option maxRecDepth 100000 in
/-- C8 counterexample: five successive full 1024-byte reads yield a banner
of 5120 bytes — the `> 4096` check runs only after appending, so the
returned banner exceeds the claimed 4096-byte cap. -/
theorem banner_cap_exceeded_cex :
    (getBannerBytes (List.replicate 5 (List.replicate 1024 0))).length = 5120 ∧
    ¬(getBannerBytes (List.replicate 5 (List.replicate 1024 0))).length
        ≤ 4096 := by
  constructor
  · decide
  · decide

/-- Invariant of the `_get_banner` receive loop: entering an iteration with
at most 4096 accumulated bytes, and reading chunks of at most 1024 bytes,
leaves at most 5120 bytes. -/
theorem bannerLoop_length_le : ∀ (chunks : List (List Nat)) (acc : List Nat),
    (∀ d ∈ chunks, d.length ≤ 1024) → acc.length ≤ 4096 →
    (bannerLoop chunks acc).length ≤ 5120
  | [], _, _, hacc => by
      simpa [bannerLoop] using hacc.trans (by omega)
  | d :: rest, acc, hch, hacc => by
      by_cases hd : d.isEmpty
      · simp only [bannerLoop, hd, if_pos]
        omega
      · have hdlen : d.length ≤ 1024 := hch d (by simp)
        by_cases hbig : 4096 < (acc ++ d).length
        · simp only [bannerLoop, hd, if_neg, Bool.false_eq_true,
            not_false_iff, hbig, if_pos]
          simp only [List.length_append]
          omega
        · have ih := bannerLoop_length_le rest (acc ++ d)
            (fun x hx => hch x (by simp [hx]))
            (by simp only [List.length_append] at hbig ⊢; omega)
          simp only [bannerLoop, hd, if_neg, Bool.false_eq_true,
            not_false_iff, hbig, if_neg]
          exact ih

/-- C8 (amended): every successful `_get_banner` invocation returns at most
5120 = 4096 + 1024 bytes: the hard cap is 4096, but it is checked only
after appending a `recv(1024)` read, so one final chunk may overshoot it by
up to 1024 bytes. -/
theorem get_banner_length_bound (chunks : List (List Nat))
    (h : ∀ d ∈ chunks, d.length ≤ 1024) :
    (getBannerBytes chunks).length ≤ 5120 :=
  bannerLoop_length_le chunks [] h (by simp)

/-- Witness for `get_banner_length_bound` on a single three-byte read. -/
theorem get_banner_length_bound_witness :
    (getBannerBytes [[1, 2, 3]]).length ≤ 5120 :=
  get_banner_length_bound [[1, 2, 3]] (by decide)

/-- C9: every HTTP body containing "wp-content" makes the web-technology
stage report "WordPress" exactly once: the WordPress signature list matches
via its first entry, and the result — a Python dict keyed by technology
name, built with a per-technology break — holds each name at most once. -/
theorem web_tech_wordpress_once (content : String)
    (h : containsSub "wp-content".toList content.toList = true) :
    (identifyWebTechnologies content).count "WordPress" = 1 := by
  have hlow := containsSub_map_toLower content.toList "wp-content".toList h
  have hmem : ("WordPress" : String) ∈ identifyWebTechnologies content := by
    unfold identifyWebTechnologies
    refine List.mem_map.mpr
      ⟨("WordPress", ["wp-content", "wp-includes", "WordPress"]), ?_, rfl⟩
    refine List.mem_filter.mpr ⟨by decide, ?_⟩
    simp only [List.any_cons, Bool.or_eq_true]
    exact Or.inl hlow
  have hsub : (identifyWebTechnologies content).Sublist
      (TECH_SIGNATURES.map Prod.fst) :=
    (List.filter_sublist TECH_SIGNATURES).map Prod.fst
  have hle := hsub.count_le "WordPress"
  have hone : (TECH_SIGNATURES.map Prod.fst).count "WordPress" = 1 := by decide
  have hge := List.one_le_count_iff.mpr hmem
  omega

/-- Witness for `web_tech_wordpress_once` on a small WordPress page body. -/
theorem web_tech_wordpress_once_witness :
    (identifyWebTechnologies "<html>wp-content/themes</html>").count
      "WordPress" = 1 :=
  web_tech_wordpress_once "<html>wp-content/themes</html>" (by decide)

end Detect

namespace Detect

/-- The `ServiceInfo` dict built by `detect_service` (service_detector.py
lines 70-75): the four initial keys, plus the three `ssl_*` keys the TLS
stage may add (an `Option` field is `none` while its key is absent). -/
structure ServiceResult where
  service : String
  version : String
  banner : String
  protocol : String
  ssl_version : Option String
  ssl_issuer : Option String
  ssl_subject : Option String
deriving DecidableEq, Repr

/-- The initial record of `detect_service` (lines 70-75). -/
def initResult : ServiceResult :=
  ⟨"unknown", "", "", "tcp", none, none, none⟩

/-- The `common_ports` table of `_detect_by_port` (lines 115-136). -/
def commonPorts : List (Nat × String) := [
  (21, "ftp"), (22, "ssh"), (23, "telnet"), (25, "smtp"), (53, "dns"),
  (80, "http"), (110, "pop3"), (143, "imap"), (443, "https"), (445, "smb"),
  (1433, "mssql"), (1521, "oracle"), (3306, "mysql"), (3389, "rdp"),
  (5432, "postgresql"), (5900, "vnc"), (6379, "redis"),
  (8080, "http-proxy"), (8443, "https-alt"), (27017, "mongodb")
]

/-- `ServiceDetector._detect_by_port` (lines 113-137):
`common_ports.get(port, '')`. -/
def detectByPort (port : Nat) : String := (commonPorts.lookup port).getD ""

/-- `ServiceDetector.SERVICE_PROBES` (lines 36-49), in dict insertion
order; payload bytes are modelled as strings of their code points. -/
def SERVICE_PROBES : List (String × String) := [
  ("http", "GET / HTTP/1.0\r\n\r\n"),
  ("https", "GET / HTTP/1.0\r\n\r\n"),
  ("ssh", "SSH-2.0-OpenSSH_Client\r\n"),
  ("ftp", ""),
  ("smtp", "EHLO test.com\r\n"),
  ("pop3", ""),
  ("imap", "A001 CAPABILITY\r\n"),
  ("telnet", ""),
  ("mysql", "\x03\x00\x00\x00\x0b\x00\x00\x00\x00\x01\x00\x00\x00"),
  ("redis", "PING\r\n"),
  ("mongodb", "\x3a\x00\x00\x00\x00\x00\x00\x00\x00\x00\x00\x00\xd4\x07\x00\x00\x00\x00\x00\x00\x61\x64\x6d\x69\x6e\x2e\x24\x63\x6d\x64\x00\x00\x00\x00\x00\xff\xff\xff\xff\x1b\x00\x00\x00\x01\x70\x69\x6e\x67\x00\x00\x00\x00\x00\x00\x00\x00\x00\x00\x00\x00\x00\x00\x00\x00\x00\x00\x00\x00"),
  ("postgresql", "\x00\x00\x00\x08\x04\xd2\x16\x2f")
]

/-- `ServiceDetector._probe_service` (lines 216-244) as a function of the
per-candidate response oracle: `resp s` is the data received after
connecting and sending candidate `s`'s payload (`none` when the connect
raises or the read times out with no data).  The first candidate whose
response contains one of its own signatures case-insensitively wins. -/
def probeService (resp : String → Option String) : String :=
  match SERVICE_PROBES.find? (fun sp =>
      match resp sp.1 with
      | none => false
      | some r =>
          match SERVICE_SIGNATURES.find? (fun sv => sv.1 == sp.1) with
          | some sv => sv.2.any (fun sig =>
              containsSub (lowerList sig.toList) (lowerList r.toList))
          | none => false) with
  | some sp => sp.1
  | none => ""

/-- The subject/issuer structure of `ssl.getpeercert()`: a sequence of
RDNs, each a sequence of (key, value) pairs, plus the validity window. -/
structure CertDict where
  subject : Option (List (List (String × String)))
  issuer : Option (List (List (String × String)))
  notBefore : Option String
  notAfter : Option String
deriving DecidableEq, Repr

/-- Outcome of the TLS connect and handshake in `_get_ssl_info`:
`fail` — an exception in the connection or handshake (lines 292-294);
`noCert ver` — handshake done but `getpeercert(binary_form=True)` returned
nothing, so line 258 returns the empty dict;
`cert ver d` — handshake done with a peer certificate, `ver` the negotiated
version and `d` the `getpeercert()` dict (`none` for an empty/absent dict,
as Python returns under disabled verification). -/
inductive TlsOutcome where
  | fail
  | noCert (ver : String)
  | cert (ver : String) (d : Option CertDict)
deriving DecidableEq, Repr

/-- Subject extraction of `_get_ssl_info` (lines 268-274): the CN
components, joined by ", ". -/
def subjectStr (su : List (List (String × String))) : String :=
  String.intercalate ", "
    (su.flatten.filterMap (fun kv =>
      if kv.1 = "commonName" then some ("CN=" ++ kv.2) else none))

/-- Issuer extraction of `_get_ssl_info` (lines 277-285): the CN and O
components, joined by ", ". -/
def issuerStr (iss : List (List (String × String))) : String :=
  String.intercalate ", "
    (iss.flatten.filterMap (fun kv =>
      if kv.1 = "commonName" then some ("CN=" ++ kv.2)
      else if kv.1 = "organizationName" then some ("O=" ++ kv.2) else none))

/-- `ServiceDetector._get_ssl_info` (lines 246-295) as a function of the
handshake outcome; the returned dict is an association list in insertion
order (version, subject, issuer, validity window). -/
def getSslInfo : TlsOutcome → List (String × String)
  | .fail => []
  | .noCert _ => []
  | .cert ver d =>
      let r0 := [("version", ver)]
      match d with
      | none => r0
      | some cd =>
          let r1 := match cd.subject with
            | some su => r0 ++ [("subject", subjectStr su)]
            | none => r0
          let r2 := match cd.issuer with
            | some iss => r1 ++ [("issuer", issuerStr iss)]
            | none => r1
          let r3 := match cd.notBefore with
            | some v => r2 ++ [("valid_from", v)]
            | none => r2
          match cd.notAfter with
          | some v => r3 ++ [("valid_until", v)]
          | none => r3

/-- The port-table stage of `detect_service` (lines 77-80). -/
def portStage (port : Nat) (r : ServiceResult) : ServiceResult :=
  let common := detectByPort port
  if common ≠ "" then { r with service := common } else r

/-- The passive-banner stage of `detect_service` (lines 82-95): `bannerOpt`
is the `_get_banner` result (`none` when it raised; the empty string is a
falsy empty read and is skipped like Python's `if banner:`). -/
def bannerStage (bannerOpt : Option String) (r : ServiceResult) :
    ServiceResult :=
  match bannerOpt with
  | none => r
  | some b =>
      if b ≠ "" then
        let r1 := { r with banner := String.mk (pyStrip b.toList) }
        let s := identifyFromBanner b
        let r2 := if s ≠ "" then { r1 with service := s } else r1
        let v := extractVersion b
        if v ≠ "" then { r2 with version := v } else r2
      else r

/-- The active-probe stage of `detect_service` (lines 97-100). -/
def probeStage (resp : String → Option String) (r : ServiceResult) :
    ServiceResult :=
  let ident := probeService resp
  if ident ≠ "" then { r with service := ident } else r

/-- The TLS stage of `detect_service` (lines 102-109). -/
def tlsStage (tls : TlsOutcome) (port : Nat) (r : ServiceResult) :
    ServiceResult :=
  if port = 443 ∨ port = 8443 ∨ r.service = "https" then
    let info := getSslInfo tls
    if info ≠ [] then
      { r with service := "https",
               ssl_version := some ((info.lookup "version").getD ""),
               ssl_issuer := some ((info.lookup "issuer").getD ""),
               ssl_subject := some ((info.lookup "subject").getD "") }
    else r
  else r

/-- `ServiceDetector.detect_service` (lines 59-111): the four stages in
source order over the initial record. -/
def detectService (port : Nat) (bannerOpt : Option String)
    (resp : String → Option String) (tls : TlsOutcome) : ServiceResult :=
  tlsStage tls port
    (probeStage resp (bannerStage bannerOpt (portStage port initResult)))

end Detect

namespace Detect

/-- C3: pipeline precedence of `detect_service`.  The banner stage never
empties a non-empty version; the probe and TLS stages do not touch version
or banner at all (so no later stage downgrades the banner stage's values);
every stage overwrites `service` only with a non-empty value; and the TLS
stage forces `service = "https"` whenever its trigger holds and the
handshake yielded certificate information (a non-empty ssl_info dict). -/
theorem detect_service_precedence (port : Nat) (b : Option String)
    (resp : String → Option String) (tls : TlsOutcome) (r : ServiceResult) :
    ((r.version ≠ "" → (bannerStage b r).version ≠ "") ∧
      (probeStage resp r).version = r.version ∧
      (probeStage resp r).banner = r.banner ∧
      (tlsStage tls port r).version = r.version ∧
      (tlsStage tls port r).banner = r.banner) ∧
    (((portStage port r).service ≠ r.service →
        (portStage port r).service ≠ "") ∧
      ((bannerStage b r).service ≠ r.service →
        (bannerStage b r).service ≠ "") ∧
      ((probeStage resp r).service ≠ r.service →
        (probeStage resp r).service ≠ "") ∧
      ((tlsStage tls port r).service ≠ r.service →
        (tlsStage tls port r).service ≠ "")) ∧
    ((port = 443 ∨ port = 8443 ∨ r.service = "https") →
      getSslInfo tls ≠ [] → (tlsStage tls port r).service = "https") := by
  refine ⟨⟨?_, ?_, ?_, ?_, ?_⟩, ⟨?_, ?_, ?_, ?_⟩, ?_⟩
  · intro hv
    cases b with
    | none => simpa [bannerStage] using hv
    | some s =>
        by_cases hs : s = ""
        · simpa [bannerStage, hs] using hv
        · simp only [bannerStage, hs, ne_eq, not_false_iff, if_pos]
          split
          · assumption
          · split <;> simpa using hv
  · simp only [probeStage]
    split <;> rfl
  · simp only [probeStage]
    split <;> rfl
  · simp only [tlsStage]
    split
    · split <;> rfl
    · rfl
  · simp only [tlsStage]
    split
    · split <;> rfl
    · rfl
  · intro hch
    simp only [portStage] at hch ⊢
    by_cases hc : detectByPort port = ""
    · simp [hc] at hch
    · simp [hc]
  · intro hch
    cases b with
    | none => simp [bannerStage] at hch
    | some s =>
        by_cases hs : s = ""
        · simp [bannerStage, hs] at hch
        · simp only [bannerStage, hs, ne_eq, not_false_iff, if_pos] at hch ⊢
          by_cases hid : identifyFromBanner s = ""
          · exfalso
            apply hch
            simp only [hid, ne_eq, not_true_eq_false, if_neg]
            split <;> rfl
          · intro hcon
            apply hid
            rw [← hcon]
            simp only [hid, ne_eq, not_false_iff, if_pos]
            split <;> rfl
  · intro hch
    simp only [probeStage] at hch ⊢
    by_cases hp : probeService resp = ""
    · simp [hp] at hch
    · simp [hp]
  · intro hch
    by_cases htr : port = 443 ∨ port = 8443 ∨ r.service = "https"
    · by_cases hin : getSslInfo tls = []
      · exact absurd (by simp [tlsStage, htr, hin]) hch
      · have hsv : (tlsStage tls port r).service = "https" := by
          simp [tlsStage, htr, hin]
        rw [hsv]
        decide
    · exact absurd (by simp [tlsStage, htr]) hch
  · intro htrig hinfo
    simp only [tlsStage, if_pos htrig, if_pos hinfo]

/-- Witness for `detect_service_precedence` on port 443 with an SSH banner,
an HTTP-answering probe oracle, a certificate-less TLS handshake and a
pre-set record, so every implication's premise is discharged concretely. -/
theorem detect_service_precedence_witness :
    ((bannerStage (some "SSH-2.0-OpenSSH_8.9")
        ⟨"x", "1.0", "B", "tcp", none, none, none⟩).version ≠ "" ∧
      (probeStage (fun s => if s = "http" then some "HTTP/1.1 200 OK" else none)
        ⟨"x", "1.0", "B", "tcp", none, none, none⟩).version = "1.0" ∧
      (probeStage (fun s => if s = "http" then some "HTTP/1.1 200 OK" else none)
        ⟨"x", "1.0", "B", "tcp", none, none, none⟩).banner = "B" ∧
      (tlsStage (TlsOutcome.cert "TLSv1.3" none) 443
        ⟨"x", "1.0", "B", "tcp", none, none, none⟩).version = "1.0" ∧
      (tlsStage (TlsOutcome.cert "TLSv1.3" none) 443
        ⟨"x", "1.0", "B", "tcp", none, none, none⟩).banner = "B") ∧
    ((portStage 443 ⟨"x", "1.0", "B", "tcp", none, none, none⟩).service
        ≠ "" ∧
      (bannerStage (some "SSH-2.0-OpenSSH_8.9")
        ⟨"x", "1.0", "B", "tcp", none, none, none⟩).service ≠ "" ∧
      (probeStage (fun s => if s = "http" then some "HTTP/1.1 200 OK" else none)
        ⟨"x", "1.0", "B", "tcp", none, none, none⟩).service ≠ "" ∧
      (tlsStage (TlsOutcome.cert "TLSv1.3" none) 443
        ⟨"x", "1.0", "B", "tcp", none, none, none⟩).service ≠ "") ∧
    (tlsStage (TlsOutcome.cert "TLSv1.3" none) 443
        ⟨"x", "1.0", "B", "tcp", none, none, none⟩).service = "https" := by
  have h := detect_service_precedence 443 (some "SSH-2.0-OpenSSH_8.9")
    (fun s => if s = "http" then some "HTTP/1.1 200 OK" else none)
    (TlsOutcome.cert "TLSv1.3" none)
    ⟨"x", "1.0", "B", "tcp", none, none, none⟩
  exact ⟨⟨h.1.1 (by decide), h.1.2.1, h.1.2.2.1, h.1.2.2.2.1, h.1.2.2.2.2⟩,
    ⟨h.2.1.1 (by decide), h.2.1.2.1 (by decide), h.2.1.2.2.1 (by decide),
      h.2.1.2.2.2 (by decide)⟩,
    h.2.2 (Or.inl rfl) (by decide)⟩

end Detect

namespace Detect

/-- C4 counterexample: a successful handshake does not by itself populate
the certificate fields or force https.  On port 8443 (`https-alt` from the
port table) a handshake that obtains no peer certificate
(`getpeercert(binary_form=True)` falsy, service_detector.py lines 256-258
return the empty dict) leaves the service untouched — not "https"; and on
port 443 a handshake whose `getpeercert()` dict is empty — the documented
Python result under the code's hardcoded `CERT_NONE` (line 252) — sets
`ssl_subject` and `ssl_issuer` to the empty string rather than to
certificate contents.  So the claim's universal "whenever the TLS
handshake succeeds" is false. -/
theorem detect_service_tls_partial_cex :
    (detectService 8443 none (fun _ => none)
        (TlsOutcome.noCert "TLSv1.3")).service = "https-alt" ∧
    ("https-alt" : String) ≠ "https" ∧
    (detectService 443 none (fun _ => none)
        (TlsOutcome.cert "TLSv1.3" none)).service = "https" ∧
    (detectService 443 none (fun _ => none)
        (TlsOutcome.cert "TLSv1.3" none)).ssl_subject = some "" ∧
    (detectService 443 none (fun _ => none)
        (TlsOutcome.cert "TLSv1.3" none)).ssl_issuer = some "" :=
  ⟨by decide, by decide, by decide, by decide, by decide⟩

/-- C4 (amended): `detect_service` consults the TLS handshake exactly when
`port ∈ {443, 8443}` or the service concluded by the earlier stages equals
"https" — otherwise the result is independent of the TLS outcome.  When
the handshake succeeds and a peer certificate is obtained, the record gets
`service = "https"` and the negotiated TLS version; the issuer and subject
fields are filled from the certificate exactly when the `getpeercert()`
dict carries them — with the empty dict (the documented Python result
under the code's disabled verification) they are set to the empty string —
and a successful handshake that obtains no peer certificate contributes
nothing at all. -/
theorem detect_service_tls_stage (port : Nat) (b : Option String)
    (resp : String → Option String) :
    (∀ tls tls',
      ¬(port = 443 ∨ port = 8443 ∨
        (probeStage resp (bannerStage b (portStage port initResult))).service
          = "https") →
      detectService port b resp tls = detectService port b resp tls') ∧
    (∀ tls ver cd su iss, tls = TlsOutcome.cert ver (some cd) →
      cd.subject = some su → cd.issuer = some iss →
      (port = 443 ∨ port = 8443 ∨
        (probeStage resp (bannerStage b (portStage port initResult))).service
          = "https") →
      (detectService port b resp tls).service = "https" ∧
      (detectService port b resp tls).ssl_version = some ver ∧
      (detectService port b resp tls).ssl_subject = some (subjectStr su) ∧
      (detectService port b resp tls).ssl_issuer = some (issuerStr iss)) ∧
    (∀ ver,
      (port = 443 ∨ port = 8443 ∨
        (probeStage resp (bannerStage b (portStage port initResult))).service
          = "https") →
      (detectService port b resp (TlsOutcome.cert ver none)).service
          = "https" ∧
      (detectService port b resp (TlsOutcome.cert ver none)).ssl_version
          = some ver ∧
      (detectService port b resp (TlsOutcome.cert ver none)).ssl_subject
          = some "" ∧
      (detectService port b resp (TlsOutcome.cert ver none)).ssl_issuer
          = some "") ∧
    (∀ ver, detectService port b resp (TlsOutcome.noCert ver)
        = detectService port b resp TlsOutcome.fail) := by
  refine ⟨?_, ?_, ?_, ?_⟩
  · intro tls tls' h
    simp only [detectService, tlsStage, if_neg h]
  · intro tls ver cd su iss htls hsu hiss htrig
    subst htls
    obtain ⟨csu, ciss, cnb, cna⟩ := cd
    simp only at hsu hiss
    subst hsu
    subst hiss
    cases cnb <;> cases cna <;>
      (simp only [detectService, tlsStage, getSslInfo, if_pos htrig]
       rw [if_pos (by simp)]
       exact ⟨rfl, rfl, rfl, rfl⟩)
  · intro ver htrig
    simp only [detectService, tlsStage, getSslInfo, if_pos htrig]
    rw [if_pos (by simp)]
    exact ⟨rfl, rfl, rfl, rfl⟩
  · intro ver
    rfl

/-- Witness for `detect_service_tls_stage`: on port 80 with an empty
environment the TLS outcome is irrelevant (first conjunct); on port 443 a
successful handshake with a populated certificate dict yields the https
record from the certificate (second conjunct); one with an empty dict
yields https with empty issuer/subject (third); and one without a peer
certificate changes nothing (fourth). -/
theorem detect_service_tls_stage_witness :
    detectService 80 none (fun _ => none) TlsOutcome.fail
        = detectService 80 none (fun _ => none)
            (TlsOutcome.cert "TLSv1.2" none) ∧
    ((detectService 443 none (fun _ => none)
        (TlsOutcome.cert "TLSv1.3"
          (some ⟨some [[("commonName", "example.org")]],
                 some [[("commonName", "R3"),
                        ("organizationName", "Example CA")]],
                 none, none⟩))).service = "https" ∧
      (detectService 443 none (fun _ => none)
        (TlsOutcome.cert "TLSv1.3"
          (some ⟨some [[("commonName", "example.org")]],
                 some [[("commonName", "R3"),
                        ("organizationName", "Example CA")]],
                 none, none⟩))).ssl_version = some "TLSv1.3" ∧
      (detectService 443 none (fun _ => none)
        (TlsOutcome.cert "TLSv1.3"
          (some ⟨some [[("commonName", "example.org")]],
                 some [[("commonName", "R3"),
                        ("organizationName", "Example CA")]],
                 none, none⟩))).ssl_subject
          = some (subjectStr [[("commonName", "example.org")]]) ∧
      (detectService 443 none (fun _ => none)
        (TlsOutcome.cert "TLSv1.3"
          (some ⟨some [[("commonName", "example.org")]],
                 some [[("commonName", "R3"),
                        ("organizationName", "Example CA")]],
                 none, none⟩))).ssl_issuer
          = some (issuerStr [[("commonName", "R3"),
                              ("organizationName", "Example CA")]])) ∧
    ((detectService 443 none (fun _ => none)
        (TlsOutcome.cert "TLSv1.1" none)).service = "https" ∧
      (detectService 443 none (fun _ => none)
        (TlsOutcome.cert "TLSv1.1" none)).ssl_version = some "TLSv1.1" ∧
      (detectService 443 none (fun _ => none)
        (TlsOutcome.cert "TLSv1.1" none)).ssl_subject = some "" ∧
      (detectService 443 none (fun _ => none)
        (TlsOutcome.cert "TLSv1.1" none)).ssl_issuer = some "") ∧
    detectService 80 none (fun _ => none) (TlsOutcome.noCert "TLSv1.2")
        = detectService 80 none (fun _ => none) TlsOutcome.fail := by
  refine ⟨?_, ?_, ?_, ?_⟩
  · exact (detect_service_tls_stage 80 none (fun _ => none)).1
      TlsOutcome.fail (TlsOutcome.cert "TLSv1.2" none) (by decide)
  · exact (detect_service_tls_stage 443 none (fun _ => none)).2.1
      (TlsOutcome.cert "TLSv1.3"
        (some ⟨some [[("commonName", "example.org")]],
               some [[("commonName", "R3"),
                      ("organizationName", "Example CA")]],
               none, none⟩))
      "TLSv1.3"
      ⟨some [[("commonName", "example.org")]],
       some [[("commonName", "R3"), ("organizationName", "Example CA")]],
       none, none⟩
      [[("commonName", "example.org")]]
      [[("commonName", "R3"), ("organizationName", "Example CA")]]
      rfl rfl rfl (Or.inl rfl)
  · exact (detect_service_tls_stage 443 none (fun _ => none)).2.2.1
      "TLSv1.1" (Or.inl rfl)
  · exact (detect_service_tls_stage 80 none (fun _ => none)).2.2.2 "TLSv1.2"

end Detect

namespace PortScan

/-- State of one `scan_host` invocation (scanner.py lines 47-86): the work
queue (`queue.Queue` is FIFO, so `get` takes the head), the ports some
worker has dequeued but not yet appended a result for (each worker is
sequential, so it holds at most one), the shared result list (appended
under `result_lock`), and the scanner's `stop_flag`. -/
structure ScanState where
  queue : List Nat
  inflight : List Nat
  results : List (List (String × Val))
  flag : Bool
deriving DecidableEq, Repr

/-- `stop_scan` (scanner.py lines 88-90): set the stop flag. -/
def stopScan (s : ScanState) : ScanState := { s with flag := true }

/-- `self.stop_flag.clear()` (scanner.py line 52). -/
def clearFlag (s : ScanState) : ScanState := { s with flag := false }

/-- The queue-filling loop (scanner.py lines 55-56): `put` appends. -/
def fillQueue (ports : List Nat) (s : ScanState) : ScanState :=
  { s with queue := s.queue ++ ports }

/-- The state of `scan_host host ports` at the moment the worker threads
start (scanner.py lines 49-80): whatever flag value `f` the scanner held,
line 52 clears it before the queue is filled and before any worker runs. -/
def scanHostInit (f : Bool) (ports : List Nat) : ScanState :=
  fillQueue ports
    (clearFlag { queue := [], inflight := [], results := [], flag := f })

/-- One worker-loop step of `scan_host` (scanner.py lines 58-72), for a run
in which the callback never raises.  `dequeue`: a worker that observed the
stop flag unset and the queue non-empty takes the queue head
(`get(block=False)`).  `finish`: a worker holding port `p` completes
`scan_port` — whose connect and `getservbyport` outcomes the oracles `net`
and `svc` give per port — and appends the result under the lock (the flag
is irrelevant to completing work already dequeued).  Any interleaving of
these steps by any number of workers is a schedule. -/
inductive WorkStep (net : Nat → ConnectOutcome) (svc : Nat → Option String) :
    ScanState → ScanState → Prop
  | dequeue (p : Nat) (rest inflight : List Nat)
      (results : List (List (String × Val))) :
      WorkStep net svc ⟨p :: rest, inflight, results, false⟩
        ⟨rest, p :: inflight, results, false⟩
  | finish (queue pre : List Nat) (p : Nat) (post : List Nat)
      (results : List (List (String × Val))) (f : Bool) :
      WorkStep net svc ⟨queue, pre ++ p :: post, results, f⟩
        ⟨queue, pre ++ post, results ++ [scanPort p (net p) (svc p)], f⟩

/-- A step of the whole scanner: a worker step, or `stop_scan` called from
another thread (scanner.py lines 88-90). -/
inductive ScanStep (net : Nat → ConnectOutcome) (svc : Nat → Option String) :
    ScanState → ScanState → Prop
  | work {s s' : ScanState} : WorkStep net svc s s' → ScanStep net svc s s'
  | stop (s : ScanState) : ScanStep net svc s (stopScan s)

/-- `scan_port` always records the probed port under the `port` key. -/
theorem scanPort_lookup_port (p : Nat) (net : ConnectOutcome)
    (svc : Option String) :
    (scanPort p net svc).lookup "port" = some (Val.n p) := by
  cases net with
  | exn m => rfl
  | code v =>
      by_cases h : v = 0
      · subst h
        rfl
      · simp [scanPort, h, List.lookup]

/-- Invariant of every stop-free run of `scan_host`: the requested ports
are split exactly among the queue, the in-flight ports and the finished
ports, and each result is `scan_port` of its port. -/
theorem workRun_split (net : Nat → ConnectOutcome)
    (svc : Nat → Option String) (f : Bool) (ports : List Nat)
    (s : ScanState)
    (h : Relation.ReflTransGen (WorkStep net svc) (scanHostInit f ports) s) :
    ∃ done : List Nat,
      s.results = done.map (fun p => scanPort p (net p) (svc p)) ∧
      (↑s.queue + ↑s.inflight + ↑done : Multiset Nat) = ↑ports := by
  induction h with
  | refl =>
      exact ⟨[], rfl, by simp [scanHostInit, fillQueue, clearFlag]⟩
  | tail _ hbc ih =>
      obtain ⟨done, hres, hms⟩ := ih
      cases hbc with
      | dequeue p rest inflight results =>
          dsimp only at hres hms
          refine ⟨done, hres, ?_⟩
          rw [← hms]
          simp only [← Multiset.cons_coe, ← Multiset.singleton_add]
          abel
      | finish queue pre p post results fl =>
          dsimp only at hres hms
          refine ⟨done ++ [p], ?_, ?_⟩
          · simp only [List.map_append, List.map_cons, List.map_nil]
            rw [hres]
          · rw [← hms]
            simp only [← Multiset.coe_add, ← Multiset.cons_coe,
              ← Multiset.singleton_add]
            abel

/-- C1: in every stop-free complete run of `scan_host` — any worker
interleaving that ends with the queue drained and no in-flight work, which
is the situation after `scan_host` joins all workers when no stop was
requested and the callback never raised — the result list has exactly
|ports| entries, their `port` values are pairwise distinct, and they cover
exactly the requested ports (which, per the scan contract, form an ordered
set: no duplicates). -/
theorem scan_host_complete (net : Nat → ConnectOutcome)
    (svc : Nat → Option String) (f : Bool) (ports : List Nat) (s : ScanState)
    (hrun : Relation.ReflTransGen (WorkStep net svc) (scanHostInit f ports) s)
    (hq : s.queue = []) (hin : s.inflight = []) (hnd : ports.Nodup) :
    s.results.length = ports.length ∧
    (s.results.map (fun r => r.lookup "port")).Nodup ∧
    (∀ p, some (Val.n p) ∈ s.results.map (fun r => r.lookup "port") ↔
      p ∈ ports) := by
  obtain ⟨done, hres, hms⟩ := workRun_split net svc f ports s hrun
  rw [hq, hin] at hms
  have hperm : done.Perm ports := by
    simpa [Multiset.coe_eq_coe] using hms
  have hmap : s.results.map (fun r => r.lookup "port")
      = done.map (fun p => some (Val.n p)) := by
    rw [hres, List.map_map]
    exact List.map_congr_left (fun p _ => scanPort_lookup_port p (net p) (svc p))
  have hinj : Function.Injective (fun p : Nat => some (Val.n p)) := by
    intro a b hab
    simpa using hab
  refine ⟨?_, ?_, ?_⟩
  · rw [hres, List.length_map]
    exact hperm.length_eq
  · rw [hmap]
    exact ((hperm.nodup_iff).mpr hnd).map hinj
  · intro p
    rw [hmap]
    constructor
    · intro hp
      obtain ⟨q, hq1, hq2⟩ := List.mem_map.mp hp
      obtain rfl : q = p := hinj hq2
      exact hperm.mem_iff.mp hq1
    · intro hp
      exact List.mem_map.mpr ⟨p, hperm.mem_iff.mpr hp, rfl⟩

/-- Witness for `scan_host_complete`: a two-port scan `[22, 80]` under a
schedule that dequeues both ports and finishes them out of order. -/
theorem scan_host_complete_witness :
    (([scanPort 80 (ConnectOutcome.code 0) none,
       scanPort 22 (ConnectOutcome.code 0) none] :
        List (List (String × Val))).length = ([22, 80] : List Nat).length) ∧
    (([scanPort 80 (ConnectOutcome.code 0) none,
       scanPort 22 (ConnectOutcome.code 0) none].map
        (fun r => r.lookup "port")).Nodup) ∧
    (some (Val.n 22) ∈
        [scanPort 80 (ConnectOutcome.code 0) none,
         scanPort 22 (ConnectOutcome.code 0) none].map
          (fun r => r.lookup "port") ↔ 22 ∈ ([22, 80] : List Nat)) := by
  have hchain : Relation.ReflTransGen
      (WorkStep (fun _ => ConnectOutcome.code 0) (fun _ => none))
      (scanHostInit false [22, 80])
      ⟨[], [], [scanPort 80 (ConnectOutcome.code 0) none,
                scanPort 22 (ConnectOutcome.code 0) none], false⟩ := by
    refine Relation.ReflTransGen.head
      (WorkStep.dequeue 22 [80] [] []) ?_
    refine Relation.ReflTransGen.head
      (WorkStep.dequeue 80 [] [22] []) ?_
    refine Relation.ReflTransGen.head
      (WorkStep.finish [] [] 80 [22] [] false) ?_
    refine Relation.ReflTransGen.head
      (WorkStep.finish [] [] 22 [] [scanPort 80 (ConnectOutcome.code 0) none]
        false) ?_
    exact Relation.ReflTransGen.refl
  have h := scan_host_complete (fun _ => ConnectOutcome.code 0) (fun _ => none)
    false [22, 80]
    ⟨[], [], [scanPort 80 (ConnectOutcome.code 0) none,
              scanPort 22 (ConnectOutcome.code 0) none], false⟩
    hchain rfl rfl (by decide)
  exact ⟨h.1, h.2.1, h.2.2 22⟩

/-- C10: `scan_host` clears the session stop flag (scanner.py line 52)
before filling the queue (lines 55-56) and before starting any worker
(lines 74-80).  So the start state is identical whatever the flag held
before — a `stop_scan` issued before `scan_host` begins, or between two
scans, has no effect on the new scan: its workers start with the flag
unset, the full queue intact, and exactly the reachable behaviors of a
never-stopped scanner; and from such a start state the first port can be
dequeued at once, so only a `stop_scan` during the run can cut it short. -/
theorem scan_host_clears_stop (net : Nat → ConnectOutcome)
    (svc : Nat → Option String) (f : Bool) (p : Nat) (ports : List Nat) :
    scanHostInit f ports = scanHostInit false ports ∧
    (scanHostInit f ports).flag = false ∧
    (∀ s, Relation.ReflTransGen (ScanStep net svc) (scanHostInit f ports) s ↔
      Relation.ReflTransGen (ScanStep net svc) (scanHostInit false ports) s) ∧
    ScanStep net svc (scanHostInit f (p :: ports))
      ⟨ports, [p], [], false⟩ := by
  refine ⟨rfl, rfl, fun s => Iff.rfl, ?_⟩
  exact ScanStep.work (WorkStep.dequeue p ports [] [])

end PortScan
